import Mathlib

/-
  Shallow embedding of components/i2cdev/i2cdev.c (ESP-32 thread-safe I2C
  master access layer).

  External driver primitives (xSemaphoreTake/Give, i2c_driver_delete,
  i2c_param_config, i2c_driver_install, i2c_master_cmd_begin,
  vSemaphoreDelete) are modelled by an environment of oracle results plus an
  event trace recording every call made to them.  The command-link builder
  calls (i2c_master_start, i2c_master_write_byte, i2c_master_write,
  i2c_master_read, i2c_master_stop) are modelled by the list of commands
  handed to i2c_master_cmd_begin.  Machine integers: esp_err_t is Int
  (ESP_FAIL is -1), the uint8_t argument of i2c_master_write_byte is a Nat
  reduced mod 256.
-/

namespace I2cdev

def ESP_OK : Int := 0

def ESP_FAIL : Int := -1

def ESP_ERR_INVALID_ARG : Int := 258

def ESP_ERR_TIMEOUT : Int := 263

def I2C_MODE_MASTER : Nat := 1

def I2C_MASTER_LAST_NACK : Nat := 2

/-- Fields of i2c_config_t that the file touches: the five electrically
relevant fields compared by cfg_equal, plus mode (set to master before
install).  Other driver-internal fields never influence this file. -/
structure i2c_config_t where
  mode : Nat
  scl_io_num : Int
  sda_io_num : Int
  scl_pullup_en : Bool
  sda_pullup_en : Bool
  clk_speed : Nat
deriving DecidableEq, Repr

/-- The zero-initialised static configs[] entry a port starts with. -/
def zeroConfig : i2c_config_t :=
  { mode := 0, scl_io_num := 0, sda_io_num := 0
    scl_pullup_en := false, sda_pullup_en := false, clk_speed := 0 }

/-- i2c_dev_t: port, 7-bit address (stored in a uint8_t) and the device's
required bus configuration. -/
structure i2c_dev_t where
  port : Nat
  addr : Nat
  cfg : i2c_config_t
deriving DecidableEq, Repr

/-- cfg_equal from i2cdev.c: field-wise equality over exactly the five
electrical fields; mode is not compared. -/
def cfg_equal (a b : i2c_config_t) : Bool :=
  a.scl_io_num == b.scl_io_num
    && a.sda_io_num == b.sda_io_num
    && a.scl_pullup_en == b.scl_pullup_en
    && a.sda_pullup_en == b.sda_pullup_en
    && a.clk_speed == b.clk_speed

/-- One command-link primitive appended by the i2c_master_* builder calls. -/
inductive Cmd where
  | start : Cmd
  | writeByte (b : Nat) (ackEn : Bool) : Cmd
  | write (bytes : List Nat) (ackEn : Bool) : Cmd
  | read (n : Nat) (ackType : Nat) : Cmd
  | stop : Cmd
deriving DecidableEq, Repr

/-- One call made to an external primitive, in program order. -/
inductive Ev where
  | semTake (port : Nat) (ok : Bool) : Ev
  | semGive (port : Nat) (ok : Bool) : Ev
  | semDelete (port : Nat) : Ev
  | driverDelete (port : Nat) : Ev
  | paramConfig (port : Nat) (cfg : i2c_config_t) : Ev
  | driverInstall (port : Nat) (mode : Nat) : Ev
  | cmdBegin (port : Nat) (cmds : List Cmd) : Ev
deriving DecidableEq, Repr

/-- Oracle results of the external primitives for one call into the layer:
whether taking/giving the port mutex succeeds, and the esp_err_t results of
i2c_param_config, i2c_driver_install and i2c_master_cmd_begin. -/
structure Env where
  takeOk : Nat → Bool
  giveOk : Nat → Bool
  paramConfigRes : Int
  installRes : Int
  cmdBeginRes : Int

/-- i2c_setup_port from i2cdev.c.  Returns (esp_err_t, new configs table,
trace of driver calls).  Faithful to the source: after a successful
delete + param_config + install cycle the source returns ESP_OK WITHOUT
writing configs[port], so the configs table is returned unchanged on every
path. -/
def i2c_setup_port (env : Env) (configs : Nat → i2c_config_t) (port : Nat)
    (cfg : Option i2c_config_t) : Int × (Nat → i2c_config_t) × List Ev :=
  match cfg with
  | none => (ESP_ERR_INVALID_ARG, configs, [])
  | some c =>
      if cfg_equal c (configs port) then
        (ESP_OK, configs, [])
      else
        let temp : i2c_config_t := { c with mode := I2C_MODE_MASTER }
        if env.paramConfigRes ≠ ESP_OK then
          (env.paramConfigRes, configs, [Ev.driverDelete port, Ev.paramConfig port temp])
        else if env.installRes ≠ ESP_OK then
          (env.installRes, configs,
            [Ev.driverDelete port, Ev.paramConfig port temp,
             Ev.driverInstall port temp.mode])
        else
          (ESP_OK, configs,
            [Ev.driverDelete port, Ev.paramConfig port temp,
             Ev.driverInstall port temp.mode])

/-- i2c_dev_read from i2cdev.c.  out_data / out_size is the optional register
selector sent before the read (a null pointer is none); in_data records
whether the input pointer is non-null.  Returns (esp_err_t, configs table,
trace). -/
def i2c_dev_read (env : Env) (configs : Nat → i2c_config_t)
    (dev : Option i2c_dev_t) (out_data : Option (List Nat)) (out_size : Nat)
    (in_data : Bool) (in_size : Nat) : Int × (Nat → i2c_config_t) × List Ev :=
  match dev with
  | none => (ESP_ERR_INVALID_ARG, configs, [])
  | some d =>
      if in_data = false ∨ in_size = 0 then
        (ESP_ERR_INVALID_ARG, configs, [])
      else if env.takeOk d.port = false then
        (ESP_ERR_TIMEOUT, configs, [Ev.semTake d.port false])
      else
        let s := i2c_setup_port env configs d.port (some d.cfg)
        let res := s.1
        let body : Int × List Ev :=
          if res = ESP_OK then
            let head : List Cmd :=
              if out_data ≠ none ∧ out_size ≠ 0 then
                [Cmd.start, Cmd.writeByte (2 * d.addr % 256) true,
                 Cmd.write ((out_data.getD []).take out_size) true]
              else []
            let cmds : List Cmd := head ++
              [Cmd.start, Cmd.writeByte ((2 * d.addr + 1) % 256) true,
               Cmd.read in_size I2C_MASTER_LAST_NACK, Cmd.stop]
            (env.cmdBeginRes, s.2.2 ++ [Ev.cmdBegin d.port cmds])
          else
            (res, s.2.2)
        if env.giveOk d.port = false then
          (ESP_FAIL, s.2.1,
            Ev.semTake d.port true :: body.2 ++ [Ev.semGive d.port false])
        else
          (body.1, s.2.1,
            Ev.semTake d.port true :: body.2 ++ [Ev.semGive d.port true])

/-- i2c_dev_write from i2cdev.c.  out_reg / out_reg_size is the optional
register selector, out_data / out_size the payload.  Faithful to the source
shadowing slip: inside the transfer branch the source declares a NEW
esp_err_t res for the i2c_master_cmd_begin result, so the value returned
after the sem give is the OUTER res, which is ESP_OK whenever the port
setup succeeded, regardless of the transfer outcome. -/
def i2c_dev_write (env : Env) (configs : Nat → i2c_config_t)
    (dev : Option i2c_dev_t) (out_reg : Option (List Nat)) (out_reg_size : Nat)
    (out_data : Option (List Nat)) (out_size : Nat) :
    Int × (Nat → i2c_config_t) × List Ev :=
  match dev with
  | none => (ESP_ERR_INVALID_ARG, configs, [])
  | some d =>
      if out_data = none ∨ out_size = 0 then
        (ESP_ERR_INVALID_ARG, configs, [])
      else if env.takeOk d.port = false then
        (ESP_ERR_TIMEOUT, configs, [Ev.semTake d.port false])
      else
        let s := i2c_setup_port env configs d.port (some d.cfg)
        let res := s.1
        let body : Int × List Ev :=
          if res = ESP_OK then
            let mid : List Cmd :=
              if out_reg ≠ none ∧ out_reg_size ≠ 0 then
                [Cmd.write ((out_reg.getD []).take out_reg_size) true]
              else []
            let cmds : List Cmd :=
              [Cmd.start, Cmd.writeByte (2 * d.addr % 256) true] ++ mid ++
                [Cmd.write ((out_data.getD []).take out_size) true, Cmd.stop]
            (ESP_OK, s.2.2 ++ [Ev.cmdBegin d.port cmds])
          else
            (res, s.2.2)
        if env.giveOk d.port = false then
          (ESP_FAIL, s.2.1,
            Ev.semTake d.port true :: body.2 ++ [Ev.semGive d.port false])
        else
          (body.1, s.2.1,
            Ev.semTake d.port true :: body.2 ++ [Ev.semGive d.port true])

/-- Loop body of i2cdev_done over the remaining port indices.  locks maps a
port to whether its mutex handle is non-null.  A take failure returns
ESP_ERR_TIMEOUT at once (SEMAPHORE_TAKE macro); a give failure returns
ESP_FAIL at once (SEMAPHORE_GIVE macro); otherwise the driver is deleted,
the mutex given back and destroyed, and the loop continues. -/
def i2cdev_done_go (env : Env) : List Nat → (Nat → Bool) →
    Int × (Nat → Bool) × List Ev
  | [], locks => (ESP_OK, locks, [])
  | i :: rest, locks =>
      if locks i = false then
        i2cdev_done_go env rest locks
      else if env.takeOk i = false then
        (ESP_ERR_TIMEOUT, locks, [Ev.semTake i false])
      else if env.giveOk i = false then
        (ESP_FAIL, locks,
          [Ev.semTake i true, Ev.driverDelete i, Ev.semGive i false])
      else
        let locks1 : Nat → Bool := fun j => if j = i then false else locks j
        let r := i2cdev_done_go env rest locks1
        (r.1, r.2.1,
          [Ev.semTake i true, Ev.driverDelete i, Ev.semGive i true,
           Ev.semDelete i] ++ r.2.2)

/-- I2C_NUM_MAX for the ESP32 SoC targeted by the file. -/
def I2C_NUM_MAX : Nat := 2

/-- i2cdev_done from i2cdev.c: tear every initialised port down in index
order. -/
def i2cdev_done (env : Env) (locks : Nat → Bool) :
    Int × (Nat → Bool) × List Ev :=
  i2cdev_done_go env (List.range I2C_NUM_MAX) locks

/-- True exactly on semGive events (the release primitive). -/
def isGive : Ev → Bool
  | Ev.semGive _ _ => true
  | Ev.semTake _ _ => false
  | Ev.semDelete _ => false
  | Ev.driverDelete _ => false
  | Ev.paramConfig _ _ => false
  | Ev.driverInstall _ _ => false
  | Ev.cmdBegin _ _ => false

/-- True exactly on cmdBegin events (execution of a built command link). -/
def isCmdBegin : Ev → Bool
  | Ev.cmdBegin _ _ => true
  | Ev.semTake _ _ => false
  | Ev.semGive _ _ => false
  | Ev.semDelete _ => false
  | Ev.driverDelete _ => false
  | Ev.paramConfig _ _ => false
  | Ev.driverInstall _ _ => false

/-- Environment in which every external primitive succeeds. -/
def okEnv : Env :=
  { takeOk := fun _ => true, giveOk := fun _ => true
    paramConfigRes := ESP_OK, installRes := ESP_OK, cmdBeginRes := ESP_OK }

/-- Environment in which only the transfer (i2c_master_cmd_begin) fails. -/
def failXferEnv : Env :=
  { takeOk := fun _ => true, giveOk := fun _ => true
    paramConfigRes := ESP_OK, installRes := ESP_OK, cmdBeginRes := ESP_FAIL }

/-- Environment in which taking any port mutex times out. -/
def timeoutEnv : Env :=
  { takeOk := fun _ => false, giveOk := fun _ => true
    paramConfigRes := ESP_OK, installRes := ESP_OK, cmdBeginRes := ESP_OK }

/-- The configs table at start-up: zero-initialised statics. -/
def initialConfigs : Nat → i2c_config_t := fun _ => zeroConfig

/-- A nontrivial bus configuration, field-wise different from zeroConfig. -/
def demoCfg : i2c_config_t :=
  { mode := 0, scl_io_num := 1, sda_io_num := 2
    scl_pullup_en := true, sda_pullup_en := true, clk_speed := 100000 }

/-- A device on port 0 at address 0x40 requiring demoCfg. -/
def demoDev : i2c_dev_t := { port := 0, addr := 64, cfg := demoCfg }

/-- A device whose configuration coincides with the zero-initialised cache
entry, so i2c_setup_port takes the cache-hit path. -/
def hitDev : i2c_dev_t := { port := 0, addr := 64, cfg := zeroConfig }

/-- Claim C1 (counter-evidence): two consecutive writes on port 0 whose
device carries the same configuration demoCfg, every driver call
succeeding.  The first transaction succeeds, yet the second one still
calls i2c_driver_delete, i2c_param_config and i2c_driver_install, because
i2c_setup_port never stores the successfully applied configuration into
configs[port]: the claimed cache hit does not happen. -/
theorem c1_second_equal_config_transaction_reconfigures :
    (i2c_dev_write okEnv initialConfigs (some demoDev) none 0 (some [1, 2]) 2).1
      = ESP_OK
    ∧ Ev.driverDelete 0 ∈
        (i2c_dev_write okEnv
          (i2c_dev_write okEnv initialConfigs (some demoDev) none 0
            (some [1, 2]) 2).2.1
          (some demoDev) none 0 (some [1, 2]) 2).2.2
    ∧ Ev.paramConfig 0 { demoCfg with mode := I2C_MODE_MASTER } ∈
        (i2c_dev_write okEnv
          (i2c_dev_write okEnv initialConfigs (some demoDev) none 0
            (some [1, 2]) 2).2.1
          (some demoDev) none 0 (some [1, 2]) 2).2.2
    ∧ Ev.driverInstall 0 I2C_MODE_MASTER ∈
        (i2c_dev_write okEnv
          (i2c_dev_write okEnv initialConfigs (some demoDev) none 0
            (some [1, 2]) 2).2.1
          (some demoDev) none 0 (some [1, 2]) 2).2.2 := by
  decide

/-- Claim C2 (counter-evidence): the configuration-apply path runs on port 0
for demoCfg (the driverInstall event shows both param-config and install
were reached and succeeded), yet the cached configuration afterwards is
still zeroConfig, not demoCfg with mode forced to master: the source never
writes configs[port] on success. -/
theorem c2_successful_apply_does_not_store_config :
    (i2c_setup_port okEnv initialConfigs 0 (some demoCfg)).1 = ESP_OK
    ∧ Ev.driverInstall 0 I2C_MODE_MASTER ∈
        (i2c_setup_port okEnv initialConfigs 0 (some demoCfg)).2.2
    ∧ (i2c_setup_port okEnv initialConfigs 0 (some demoCfg)).2.1 0 = zeroConfig
    ∧ zeroConfig ≠ { demoCfg with mode := I2C_MODE_MASTER } := by
  decide

/-- Claim C3 (counter-evidence): a write on hitDev (validation, lock and
port setup all succeed; setup is a cache hit) in an environment where the
transfer fails with ESP_FAIL and the lock release succeeds.  The command
link is executed (cmdBegin event present) and its result is ESP_FAIL, yet
the call returns ESP_OK: the inner esp_err_t res shadows the outer one, so
the transfer error is discarded. -/
theorem c3_write_returns_ok_despite_transfer_failure :
    failXferEnv.cmdBeginRes = ESP_FAIL
    ∧ Ev.cmdBegin 0
        [Cmd.start, Cmd.writeByte 128 true, Cmd.write [5] true, Cmd.stop] ∈
        (i2c_dev_write failXferEnv initialConfigs (some hitDev) none 0
          (some [5]) 1).2.2
    ∧ (i2c_dev_write failXferEnv initialConfigs (some hitDev) none 0
        (some [5]) 1).1 = ESP_OK := by
  decide

/-- The trace of i2c_setup_port on a non-null configuration takes one of
three shapes: nothing (cache hit), delete + param-config (param-config
failed), or delete + param-config + install. -/
lemma setup_trace_cases (env : Env) (configs : Nat → i2c_config_t)
    (port : Nat) (c : i2c_config_t) :
    (i2c_setup_port env configs port (some c)).2.2 = []
    ∨ (i2c_setup_port env configs port (some c)).2.2 =
        [Ev.driverDelete port,
         Ev.paramConfig port { c with mode := I2C_MODE_MASTER }]
    ∨ (i2c_setup_port env configs port (some c)).2.2 =
        [Ev.driverDelete port,
         Ev.paramConfig port { c with mode := I2C_MODE_MASTER },
         Ev.driverInstall port I2C_MODE_MASTER] := by
  unfold i2c_setup_port
  by_cases h1 : cfg_equal c (configs port)
  · simp [h1]
  · by_cases h2 : env.paramConfigRes = ESP_OK
    · by_cases h3 : env.installRes = ESP_OK <;> simp [h1, h2, h3]
    · simp [h1, h2]

/-- i2c_setup_port never changes the configs table (the source is missing
the store on success, and failure paths never store either). -/
lemma setup_configs_unchanged (env : Env) (configs : Nat → i2c_config_t)
    (port : Nat) (cfg : Option i2c_config_t) :
    (i2c_setup_port env configs port cfg).2.1 = configs := by
  cases cfg with
  | none => rfl
  | some c =>
      unfold i2c_setup_port
      by_cases h1 : cfg_equal c (configs port)
      · simp [h1]
      · by_cases h2 : env.paramConfigRes = ESP_OK
        · by_cases h3 : env.installRes = ESP_OK <;> simp [h1, h2, h3]
        · simp [h1, h2]

/-- i2c_setup_port emits no semGive event. -/
lemma setup_countP_isGive (env : Env) (configs : Nat → i2c_config_t)
    (port : Nat) (c : i2c_config_t) :
    ((i2c_setup_port env configs port (some c)).2.2).countP isGive = 0 := by
  rcases setup_trace_cases env configs port c with h | h | h <;>
    simp [h, isGive]

/-- i2c_setup_port emits no cmdBegin event. -/
lemma setup_filter_isCmdBegin (env : Env) (configs : Nat → i2c_config_t)
    (port : Nat) (c : i2c_config_t) :
    ((i2c_setup_port env configs port (some c)).2.2).filter isCmdBegin = [] := by
  rcases setup_trace_cases env configs port c with h | h | h <;>
    simp [h, isCmdBegin]

/-- Claim C4: a read with a null descriptor, null input buffer or zero
input size, and a write with a null descriptor, null output data or zero
output size, return ESP_ERR_INVALID_ARG with the configs table unchanged
and an empty trace: no lock taken and no driver or cache operation. -/
theorem c4_invalid_args_no_side_effects (env : Env)
    (configs : Nat → i2c_config_t) (dev : Option i2c_dev_t)
    (out_data : Option (List Nat)) (out_size : Nat)
    (in_data : Bool) (in_size : Nat)
    (out_reg : Option (List Nat)) (out_reg_size : Nat)
    (wdata : Option (List Nat)) (wsize : Nat) :
    (dev = none ∨ in_data = false ∨ in_size = 0 →
      i2c_dev_read env configs dev out_data out_size in_data in_size
        = (ESP_ERR_INVALID_ARG, configs, []))
    ∧ (dev = none ∨ wdata = none ∨ wsize = 0 →
      i2c_dev_write env configs dev out_reg out_reg_size wdata wsize
        = (ESP_ERR_INVALID_ARG, configs, [])) := by
  constructor
  · rintro (rfl | h)
    · rfl
    · cases dev with
      | none => rfl
      | some d => simp only [i2c_dev_read, if_pos h]
  · rintro (rfl | h)
    · rfl
    · cases dev with
      | none => rfl
      | some d => simp only [i2c_dev_write, if_pos h]

/-- Claim C4 witness: read with a null input buffer and write with null
output data on a concrete device. -/
theorem c4_invalid_args_no_side_effects_witness :
    i2c_dev_read okEnv initialConfigs (some demoDev) none 0 false 2
      = (ESP_ERR_INVALID_ARG, initialConfigs, [])
    ∧ i2c_dev_write okEnv initialConfigs (some demoDev) none 0 none 2
      = (ESP_ERR_INVALID_ARG, initialConfigs, []) :=
  ⟨(c4_invalid_args_no_side_effects okEnv initialConfigs (some demoDev)
      none 0 false 2 none 0 none 2).1 (Or.inr (Or.inl rfl)),
   (c4_invalid_args_no_side_effects okEnv initialConfigs (some demoDev)
      none 0 false 2 none 0 none 2).2 (Or.inr (Or.inl rfl))⟩

/-- Claim C5: when the arguments are valid but taking the port mutex times
out, both read and write return ESP_ERR_TIMEOUT, the configs table is
unchanged, and the trace holds only the failed take: the configuration
cache is not consulted and no driver primitive runs. -/
theorem c5_lock_timeout_no_driver_calls (env : Env)
    (configs : Nat → i2c_config_t) (d : i2c_dev_t)
    (out_data : Option (List Nat)) (out_size in_size : Nat)
    (out_reg : Option (List Nat)) (out_reg_size : Nat)
    (wdata : List Nat) (wsize : Nat)
    (htake : env.takeOk d.port = false)
    (hin : in_size ≠ 0) (hw : wsize ≠ 0) :
    i2c_dev_read env configs (some d) out_data out_size true in_size
      = (ESP_ERR_TIMEOUT, configs, [Ev.semTake d.port false])
    ∧ i2c_dev_write env configs (some d) out_reg out_reg_size (some wdata) wsize
      = (ESP_ERR_TIMEOUT, configs, [Ev.semTake d.port false]) := by
  constructor
  · simp [i2c_dev_read, htake, hin]
  · simp [i2c_dev_write, htake, hw]

/-- Claim C5 witness: a concrete read and write under timeoutEnv. -/
theorem c5_lock_timeout_no_driver_calls_witness :
    i2c_dev_read timeoutEnv initialConfigs (some demoDev) none 0 true 1
      = (ESP_ERR_TIMEOUT, initialConfigs, [Ev.semTake demoDev.port false])
    ∧ i2c_dev_write timeoutEnv initialConfigs (some demoDev) none 0 (some [5]) 1
      = (ESP_ERR_TIMEOUT, initialConfigs, [Ev.semTake demoDev.port false]) :=
  c5_lock_timeout_no_driver_calls timeoutEnv initialConfigs demoDev
    none 0 1 none 0 [5] 1 rfl (by decide) (by decide)

/-- Claim C9: when the port mutex was taken but giving it back fails, both
read and write return ESP_FAIL, whatever the earlier setup and transfer
results were (the generality over env covers a fully successful transfer). -/
theorem c9_release_failure_supersedes_result (env : Env)
    (configs : Nat → i2c_config_t) (d : i2c_dev_t)
    (out_data : Option (List Nat)) (out_size in_size : Nat)
    (out_reg : Option (List Nat)) (out_reg_size : Nat)
    (wdata : List Nat) (wsize : Nat)
    (htake : env.takeOk d.port = true)
    (hgive : env.giveOk d.port = false)
    (hin : in_size ≠ 0) (hw : wsize ≠ 0) :
    (i2c_dev_read env configs (some d) out_data out_size true in_size).1
      = ESP_FAIL
    ∧ (i2c_dev_write env configs (some d) out_reg out_reg_size
        (some wdata) wsize).1 = ESP_FAIL := by
  constructor
  · simp [i2c_dev_read, htake, hgive, hin]
  · simp [i2c_dev_write, htake, hgive, hw]

/-- Environment in which every primitive succeeds except giving the mutex
back. -/
def failGiveEnv : Env :=
  { takeOk := fun _ => true, giveOk := fun _ => false
    paramConfigRes := ESP_OK, installRes := ESP_OK, cmdBeginRes := ESP_OK }

/-- Claim C9 witness: concrete read and write under failGiveEnv, where the
transfer itself succeeded. -/
theorem c9_release_failure_supersedes_result_witness :
    (i2c_dev_read failGiveEnv initialConfigs (some demoDev) none 0
      true 1).1 = ESP_FAIL
    ∧ (i2c_dev_write failGiveEnv initialConfigs (some demoDev) none 0
        (some [5]) 1).1 = ESP_FAIL :=
  c9_release_failure_supersedes_result failGiveEnv initialConfigs demoDev
    none 0 1 none 0 [5] 1 rfl rfl (by decide) (by decide)

/-- Claim C6: once the port mutex is taken, both read and write emit
exactly one semGive event, whatever the setup, transfer and give outcomes
are (env ranges over success, configuration failure, transfer failure and
even release failure). -/
theorem c6_release_called_exactly_once (env : Env)
    (configs : Nat → i2c_config_t) (d : i2c_dev_t)
    (out_data : Option (List Nat)) (out_size in_size : Nat)
    (out_reg : Option (List Nat)) (out_reg_size : Nat)
    (wdata : List Nat) (wsize : Nat)
    (htake : env.takeOk d.port = true)
    (hin : in_size ≠ 0) (hw : wsize ≠ 0) :
    ((i2c_dev_read env configs (some d) out_data out_size
        true in_size).2.2).countP isGive = 1
    ∧ ((i2c_dev_write env configs (some d) out_reg out_reg_size
        (some wdata) wsize).2.2).countP isGive = 1 := by
  have h0 := setup_countP_isGive env configs d.port d.cfg
  constructor
  · by_cases hg : env.giveOk d.port = false <;>
      by_cases hr : (i2c_setup_port env configs d.port (some d.cfg)).1 = ESP_OK <;>
        simp [i2c_dev_read, htake, hin, hg, hr, isGive,
          List.countP_cons, List.countP_append, h0]
  · by_cases hg : env.giveOk d.port = false <;>
      by_cases hr : (i2c_setup_port env configs d.port (some d.cfg)).1 = ESP_OK <;>
        simp [i2c_dev_write, htake, hw, hg, hr, isGive,
          List.countP_cons, List.countP_append, h0]

/-- Claim C6 witness: concrete read and write under an environment where
the transfer fails, showing one release each. -/
theorem c6_release_called_exactly_once_witness :
    ((i2c_dev_read failXferEnv initialConfigs (some demoDev) none 0
        true 1).2.2).countP isGive = 1
    ∧ ((i2c_dev_write failXferEnv initialConfigs (some demoDev) none 0
        (some [5]) 1).2.2).countP isGive = 1 :=
  c6_release_called_exactly_once failXferEnv initialConfigs demoDev
    none 0 1 none 0 [5] 1 rfl (by decide) (by decide)

/-- Claim C7: a read with a non-null, non-empty register selector that
reaches command execution hands the driver exactly one command link, and
that link is: start, write of the address shifted left with write bit,
write of the selector bytes ack-expected, repeated start with no
intervening stop, write of the address shifted left with read bit set,
read of the requested bytes with last-byte NACK, stop. -/
theorem c7_read_with_selector_command_sequence (env : Env)
    (configs : Nat → i2c_config_t) (d : i2c_dev_t)
    (pfx : List Nat) (in_size : Nat)
    (hp : pfx ≠ []) (hin : in_size ≠ 0)
    (htake : env.takeOk d.port = true)
    (hsetup : (i2c_setup_port env configs d.port (some d.cfg)).1 = ESP_OK) :
    ((i2c_dev_read env configs (some d) (some pfx) pfx.length
        true in_size).2.2).filter isCmdBegin
      = [Ev.cmdBegin d.port
          [Cmd.start, Cmd.writeByte (2 * d.addr % 256) true,
           Cmd.write pfx true,
           Cmd.start, Cmd.writeByte ((2 * d.addr + 1) % 256) true,
           Cmd.read in_size I2C_MASTER_LAST_NACK, Cmd.stop]] := by
  have h0 := setup_filter_isCmdBegin env configs d.port d.cfg
  have hlen : pfx.length ≠ 0 := by simpa using hp
  by_cases hg : env.giveOk d.port = false <;>
    simp [i2c_dev_read, htake, hin, hg, hsetup, hlen,
      List.filter_append, h0, isCmdBegin, List.take_length]

/-- Claim C7 witness: reading 2 bytes from demoDev after selecting with a
3-byte register selector. -/
theorem c7_read_with_selector_command_sequence_witness :
    ((i2c_dev_read okEnv initialConfigs (some demoDev) (some [10, 11, 12])
        (List.length [10, 11, 12]) true 2).2.2).filter isCmdBegin
      = [Ev.cmdBegin demoDev.port
          [Cmd.start, Cmd.writeByte (2 * demoDev.addr % 256) true,
           Cmd.write [10, 11, 12] true,
           Cmd.start, Cmd.writeByte ((2 * demoDev.addr + 1) % 256) true,
           Cmd.read 2 I2C_MASTER_LAST_NACK, Cmd.stop]] :=
  c7_read_with_selector_command_sequence okEnv initialConfigs demoDev
    [10, 11, 12] 2 (by decide) (by decide) rfl (by decide)

/-- Claim C8: a write that reaches command execution hands the driver
exactly one command link: start, write of the address shifted left with
write bit, then the register selector bytes only when the selector pointer
is non-null and its size nonzero (a null or zero-size selector contributes
nothing, and there is no extra start frame either way), then the data
bytes, then stop. -/
theorem c8_write_command_sequence (env : Env)
    (configs : Nat → i2c_config_t) (d : i2c_dev_t)
    (wdata : List Nat) (out_reg : Option (List Nat)) (rsz : Nat)
    (hw : wdata ≠ [])
    (htake : env.takeOk d.port = true)
    (hsetup : (i2c_setup_port env configs d.port (some d.cfg)).1 = ESP_OK)
    (hr : out_reg = none ∨ rsz = (out_reg.getD []).length) :
    ((i2c_dev_write env configs (some d) out_reg rsz (some wdata)
        wdata.length).2.2).filter isCmdBegin
      = [Ev.cmdBegin d.port
          ([Cmd.start, Cmd.writeByte (2 * d.addr % 256) true]
            ++ (if out_reg ≠ none ∧ rsz ≠ 0 then
                  [Cmd.write (out_reg.getD []) true]
                else [])
            ++ [Cmd.write wdata true, Cmd.stop])] := by
  have h0 := setup_filter_isCmdBegin env configs d.port d.cfg
  have hwlen : wdata.length ≠ 0 := by simpa using hw
  by_cases hc : out_reg ≠ none ∧ rsz ≠ 0
  · obtain ⟨pfx, rfl⟩ : ∃ pfx, out_reg = some pfx := by
      rcases out_reg with _ | pfx
      · exact absurd rfl hc.1
      · exact ⟨pfx, rfl⟩
    have hrlen : rsz = pfx.length := by
      rcases hr with h | h
      · exact absurd h (by simp)
      · simpa using h
    subst hrlen
    by_cases hg : env.giveOk d.port = false <;>
      simp [i2c_dev_write, htake, hwlen, hg, hsetup, hc,
        List.filter_append, h0, isCmdBegin, List.take_length]
  · by_cases hg : env.giveOk d.port = false <;>
      simp [i2c_dev_write, htake, hwlen, hg, hsetup, hc,
        List.filter_append, h0, isCmdBegin]

/-- Claim C8 witness: a 4-byte write with no register selector (no middle
frame) and a 2-byte write with a 1-byte selector. -/
theorem c8_write_command_sequence_witness :
    ((i2c_dev_write okEnv initialConfigs (some demoDev) none 0
        (some [1, 2, 3, 4]) (List.length [1, 2, 3, 4])).2.2).filter isCmdBegin
      = [Ev.cmdBegin demoDev.port
          ([Cmd.start, Cmd.writeByte (2 * demoDev.addr % 256) true]
            ++ (if (none : Option (List Nat)) ≠ none ∧ (0 : Nat) ≠ 0 then
                  [Cmd.write ((none : Option (List Nat)).getD []) true]
                else [])
            ++ [Cmd.write [1, 2, 3, 4] true, Cmd.stop])]
    ∧ ((i2c_dev_write okEnv initialConfigs (some demoDev) (some [7]) 1
        (some [8, 9]) (List.length [8, 9])).2.2).filter isCmdBegin
      = [Ev.cmdBegin demoDev.port
          ([Cmd.start, Cmd.writeByte (2 * demoDev.addr % 256) true]
            ++ (if (some [7] : Option (List Nat)) ≠ none ∧ (1 : Nat) ≠ 0 then
                  [Cmd.write ((some [7] : Option (List Nat)).getD []) true]
                else [])
            ++ [Cmd.write [8, 9] true, Cmd.stop])] :=
  ⟨c8_write_command_sequence okEnv initialConfigs demoDev [1, 2, 3, 4]
      none 0 (by decide) rfl (by decide) (Or.inl rfl),
   c8_write_command_sequence okEnv initialConfigs demoDev [8, 9]
      (some [7]) 1 (by decide) rfl (by decide) (Or.inr (by decide))⟩

/-- Ports with a null mutex handle are skipped with no effect. -/
lemma done_go_cons_skip (env : Env) (rest : List Nat) (locks : Nat → Bool)
    (i : Nat) (h : locks i = false) :
    i2cdev_done_go env (i :: rest) locks = i2cdev_done_go env rest locks := by
  simp [i2cdev_done_go, h]

/-- Full teardown of one port when take and give both succeed. -/
lemma done_go_cons_ok (env : Env) (rest : List Nat) (locks : Nat → Bool)
    (i : Nat) (hl : locks i = true) (ht : env.takeOk i = true)
    (hg : env.giveOk i = true) :
    i2cdev_done_go env (i :: rest) locks
      = ((i2cdev_done_go env rest (fun j => if j = i then false else locks j)).1,
         (i2cdev_done_go env rest (fun j => if j = i then false else locks j)).2.1,
         [Ev.semTake i true, Ev.driverDelete i, Ev.semGive i true,
          Ev.semDelete i]
           ++ (i2cdev_done_go env rest
                (fun j => if j = i then false else locks j)).2.2) := by
  simp [i2cdev_done_go, hl, ht, hg]

/-- A take timeout stops the loop at once with ESP_ERR_TIMEOUT. -/
lemma done_go_cons_take_fail (env : Env) (rest : List Nat)
    (locks : Nat → Bool) (i : Nat) (hl : locks i = true)
    (ht : env.takeOk i = false) :
    i2cdev_done_go env (i :: rest) locks
      = (ESP_ERR_TIMEOUT, locks, [Ev.semTake i false]) := by
  simp [i2cdev_done_go, hl, ht]

/-- A give failure stops the loop at once with ESP_FAIL, after the driver
delete but before destroying the mutex. -/
lemma done_go_cons_give_fail (env : Env) (rest : List Nat)
    (locks : Nat → Bool) (i : Nat) (hl : locks i = true)
    (ht : env.takeOk i = true) (hg : env.giveOk i = false) :
    i2cdev_done_go env (i :: rest) locks
      = (ESP_FAIL, locks,
         [Ev.semTake i true, Ev.driverDelete i, Ev.semGive i false]) := by
  simp [i2cdev_done_go, hl, ht, hg]

/-- Running the teardown loop over l1 ++ l2, when every live port of l1
tears down cleanly, reaches l2 with some lock table that agrees with the
original outside l1, and the events produced so far mention driverDelete
and semDelete only for ports of l1. -/
lemma done_go_split (env : Env) (l1 l2 : List Nat) (locks : Nat → Bool)
    (hpre : ∀ i ∈ l1, locks i = true →
      env.takeOk i = true ∧ env.giveOk i = true) :
    ∃ locks1 evs1,
      i2cdev_done_go env (l1 ++ l2) locks
        = ((i2cdev_done_go env l2 locks1).1,
           (i2cdev_done_go env l2 locks1).2.1,
           evs1 ++ (i2cdev_done_go env l2 locks1).2.2)
      ∧ (∀ j, j ∉ l1 → locks1 j = locks j)
      ∧ (∀ q, Ev.driverDelete q ∈ evs1 → q ∈ l1)
      ∧ (∀ q, Ev.semDelete q ∈ evs1 → q ∈ l1) := by
  induction l1 generalizing locks with
  | nil =>
      exact ⟨locks, [], by simp, fun j _ => rfl, by simp, by simp⟩
  | cons i t ih =>
      by_cases hl : locks i = true
      · obtain ⟨ht, hg⟩ := hpre i (by simp) hl
        have hpre' : ∀ j ∈ t,
            (fun j => if j = i then false else locks j) j = true →
            env.takeOk j = true ∧ env.giveOk j = true := by
          intro j hj hlj
          by_cases hji : j = i
          · subst hji; simp at hlj
          · exact hpre j (by simp [hj]) (by simpa [hji] using hlj)
        obtain ⟨L1, E1, heq, hout, hdd, hsd⟩ :=
          ih (fun j => if j = i then false else locks j) hpre'
        refine ⟨L1,
          [Ev.semTake i true, Ev.driverDelete i, Ev.semGive i true,
           Ev.semDelete i] ++ E1, ?_, ?_, ?_, ?_⟩
        · rw [List.cons_append, done_go_cons_ok env (t ++ l2) locks i hl ht hg,
            heq]
          simp
        · intro j hj
          have hji : j ≠ i := fun h => hj (by simp [h])
          have hjt : j ∉ t := fun h => hj (List.mem_cons_of_mem _ h)
          rw [hout j hjt]
          simp [hji]
        · intro q hq
          rcases List.mem_append.mp hq with h | h
          · simp at h
            simp [h]
          · exact List.mem_cons_of_mem _ (hdd q h)
        · intro q hq
          rcases List.mem_append.mp hq with h | h
          · simp at h
            simp [h]
          · exact List.mem_cons_of_mem _ (hsd q h)
      · have hlf : locks i = false := by
          cases h : locks i
          · rfl
          · exact absurd h hl
        obtain ⟨L1, E1, heq, hout, hdd, hsd⟩ :=
          ih locks (fun j hj => hpre j (List.mem_cons_of_mem _ hj))
        refine ⟨L1, E1, ?_, ?_, ?_, ?_⟩
        · rw [List.cons_append, done_go_cons_skip env (t ++ l2) locks i hlf]
          exact heq
        · exact fun j hj => hout j (fun h => hj (List.mem_cons_of_mem _ h))
        · exact fun q hq => List.mem_cons_of_mem _ (hdd q hq)
        · exact fun q hq => List.mem_cons_of_mem _ (hsd q hq)

/-- Abort behaviour of the teardown loop at the first problematic port p:
a take timeout returns ESP_ERR_TIMEOUT with no driver delete for p and
the lock table unchanged outside the already-handled ports; a give failure
returns ESP_FAIL with p's mutex (and all later ones) not destroyed. -/
lemma done_go_abort (env : Env) (l1 l2 : List Nat) (p : Nat)
    (locks : Nat → Bool)
    (hpre : ∀ i ∈ l1, locks i = true →
      env.takeOk i = true ∧ env.giveOk i = true)
    (hp : p ∉ l1) (hlp : locks p = true) :
    (env.takeOk p = false →
      (i2cdev_done_go env (l1 ++ p :: l2) locks).1 = ESP_ERR_TIMEOUT
      ∧ Ev.driverDelete p ∉ (i2cdev_done_go env (l1 ++ p :: l2) locks).2.2
      ∧ ∀ j, j ∉ l1 →
          (i2cdev_done_go env (l1 ++ p :: l2) locks).2.1 j = locks j)
    ∧ (env.takeOk p = true → env.giveOk p = false →
      (i2cdev_done_go env (l1 ++ p :: l2) locks).1 = ESP_FAIL
      ∧ Ev.semDelete p ∉ (i2cdev_done_go env (l1 ++ p :: l2) locks).2.2
      ∧ ∀ j, j ∉ l1 →
          (i2cdev_done_go env (l1 ++ p :: l2) locks).2.1 j = locks j) := by
  obtain ⟨L1, E1, heq, hout, hdd, hsd⟩ := done_go_split env l1 (p :: l2) locks hpre
  have hL1p : L1 p = true := (hout p hp).trans hlp
  constructor
  · intro htake
    rw [heq, done_go_cons_take_fail env l2 L1 p hL1p htake]
    refine ⟨rfl, ?_, fun j hj => hout j hj⟩
    intro hmem
    rcases List.mem_append.mp hmem with h | h
    · exact hp (hdd p h)
    · simp at h
  · intro htake hgive
    rw [heq, done_go_cons_give_fail env l2 L1 p hL1p htake hgive]
    refine ⟨rfl, ?_, fun j hj => hout j hj⟩
    intro hmem
    rcases List.mem_append.mp hmem with h | h
    · exact hp (hsd p h)
    · simp at h

/-- Claim C10: during shutdown, if taking port p's mutex times out while
every earlier live port tore down cleanly, i2cdev_done returns
ESP_ERR_TIMEOUT at once, never calls i2c_driver_delete for p, and leaves
the mutex of p and of every later port undestroyed; likewise a give
failure at p aborts the teardown with ESP_FAIL, leaving the mutex of p and
of every later port undestroyed. -/
theorem c10_shutdown_aborts_on_lock_failure :
    (∀ (env : Env) (locks : Nat → Bool) (p : Nat),
      p < I2C_NUM_MAX →
      (∀ i, i < p → locks i = true →
        env.takeOk i = true ∧ env.giveOk i = true) →
      locks p = true → env.takeOk p = false →
      (i2cdev_done env locks).1 = ESP_ERR_TIMEOUT
      ∧ Ev.driverDelete p ∉ (i2cdev_done env locks).2.2
      ∧ ∀ j, p ≤ j → (i2cdev_done env locks).2.1 j = locks j)
    ∧ (∀ (env : Env) (locks : Nat → Bool) (p : Nat),
      p < I2C_NUM_MAX →
      (∀ i, i < p → locks i = true →
        env.takeOk i = true ∧ env.giveOk i = true) →
      locks p = true → env.takeOk p = true → env.giveOk p = false →
      (i2cdev_done env locks).1 = ESP_FAIL
      ∧ Ev.semDelete p ∉ (i2cdev_done env locks).2.2
      ∧ ∀ j, p ≤ j → (i2cdev_done env locks).2.1 j = locks j) := by
  constructor
  · intro env locks p hpmax hpre hlp htake
    have hp2 : p < 2 := hpmax
    interval_cases p
    · have h := (done_go_abort env [] [1] 0 locks (by simp) (by simp) hlp).1
        htake
      have hrw : i2cdev_done env locks
          = i2cdev_done_go env ([] ++ 0 :: [1]) locks := rfl
      rw [hrw]
      exact ⟨h.1, h.2.1, fun j _ => h.2.2 j (by simp)⟩
    · have hpre' : ∀ i ∈ [0], locks i = true →
          env.takeOk i = true ∧ env.giveOk i = true := by
        intro i hi
        simp at hi
        subst hi
        exact hpre 0 (by omega)
      have h := (done_go_abort env [0] [] 1 locks hpre' (by simp) hlp).1
        htake
      have hrw : i2cdev_done env locks
          = i2cdev_done_go env ([0] ++ 1 :: []) locks := rfl
      rw [hrw]
      exact ⟨h.1, h.2.1, fun j hj => h.2.2 j (by simp; omega)⟩
  · intro env locks p hpmax hpre hlp htake hgive
    have hp2 : p < 2 := hpmax
    interval_cases p
    · have h := (done_go_abort env [] [1] 0 locks (by simp) (by simp) hlp).2
        htake hgive
      have hrw : i2cdev_done env locks
          = i2cdev_done_go env ([] ++ 0 :: [1]) locks := rfl
      rw [hrw]
      exact ⟨h.1, h.2.1, fun j _ => h.2.2 j (by simp)⟩
    · have hpre' : ∀ i ∈ [0], locks i = true →
          env.takeOk i = true ∧ env.giveOk i = true := by
        intro i hi
        simp at hi
        subst hi
        exact hpre 0 (by omega)
      have h := (done_go_abort env [0] [] 1 locks hpre' (by simp) hlp).2
        htake hgive
      have hrw : i2cdev_done env locks
          = i2cdev_done_go env ([0] ++ 1 :: []) locks := rfl
      rw [hrw]
      exact ⟨h.1, h.2.1, fun j hj => h.2.2 j (by simp; omega)⟩

/-- Lock table in which every port has a live mutex. -/
def allLocks : Nat → Bool := fun _ => true

/-- Shutdown environment where taking the mutex of port 1 times out. -/
def doneEnvA : Env :=
  { takeOk := fun i => i == 0, giveOk := fun _ => true
    paramConfigRes := ESP_OK, installRes := ESP_OK, cmdBeginRes := ESP_OK }

/-- Shutdown environment where giving back the mutex of port 1 fails. -/
def doneEnvB : Env :=
  { takeOk := fun _ => true, giveOk := fun i => i == 0
    paramConfigRes := ESP_OK, installRes := ESP_OK, cmdBeginRes := ESP_OK }

/-- Claim C10 witness: port 0 tears down cleanly; the failure happens at
port 1, in doneEnvA as a take timeout and in doneEnvB as a give failure. -/
theorem c10_shutdown_aborts_on_lock_failure_witness :
    (i2cdev_done doneEnvA allLocks).1 = ESP_ERR_TIMEOUT
    ∧ (Ev.driverDelete 1 ∈ (i2cdev_done doneEnvA allLocks).2.2 → False)
    ∧ (i2cdev_done doneEnvA allLocks).2.1 1 = allLocks 1
    ∧ (i2cdev_done doneEnvB allLocks).1 = ESP_FAIL
    ∧ (Ev.semDelete 1 ∈ (i2cdev_done doneEnvB allLocks).2.2 → False)
    ∧ (i2cdev_done doneEnvB allLocks).2.1 1 = allLocks 1 := by
  have hA := c10_shutdown_aborts_on_lock_failure.1 doneEnvA allLocks 1
    (by decide)
    (by intro i hi h; interval_cases i; exact ⟨rfl, rfl⟩)
    rfl rfl
  have hB := c10_shutdown_aborts_on_lock_failure.2 doneEnvB allLocks 1
    (by decide)
    (by intro i hi h; interval_cases i; exact ⟨rfl, rfl⟩)
    rfl rfl rfl
  exact ⟨hA.1, hA.2.1, hA.2.2 1 (by omega), hB.1, hB.2.1, hB.2.2 1 (by omega)⟩

end I2cdev
